import Mathlib

/-!
Verification of the AskStan retrieval-augmented chatbot.

The Python sources are embedded shallowly:
* Python `float` scores and averages are modelled as exact rationals (`ℚ`);
  Python's `round` (banker's rounding) becomes `pyRound`.
* Remote calls (vector search, PDF parsing, the text splitter, the LLM
  stream) are parameters of the embedded functions: an `Except`/`Option`
  value standing for what the call returned or the exception it raised.
* Python `dict` metadata becomes an association list where the most recent
  binding for a key wins (`Metadata.set` conses, `Metadata.get` returns the
  first hit), matching `dict` assignment/lookup semantics.
-/

namespace AskStan

/-- A metadata value: Python metadata dicts here hold ints or strings. -/
inductive MetaVal where
  | nat (n : Nat)
  | str (s : String)
deriving DecidableEq, Repr

/-- How Python renders the value inside an f-string. -/
def MetaVal.render : MetaVal → String
  | .nat n => toString n
  | .str s => s

/-- Python dict, restricted to the string-keyed metadata dicts of the repo. -/
def Metadata := List (String × MetaVal)
deriving DecidableEq

/-- `d[k]` / `d.get(k)`: first binding wins (most recent assignment). -/
def Metadata.get (m : Metadata) (k : String) : Option MetaVal :=
  List.lookup k m

/-- `d.get(k, default)`. -/
def Metadata.getD (m : Metadata) (k : String) (v : MetaVal) : MetaVal :=
  (m.get k).getD v

/-- `d[k] = v`: the new binding shadows any older one. -/
def Metadata.set (m : Metadata) (k : String) (v : MetaVal) : Metadata :=
  (k, v) :: m

/-- `langchain_core.documents.Document`: page content plus metadata. -/
structure Document where
  page_content : String
  metadata : Metadata
deriving DecidableEq

/-- Nearest integer, ties to even — the rounding mode of Python `round`. -/
def roundHalfEven (q : ℚ) : ℤ :=
  let f : ℤ := ⌊q⌋
  let frac : ℚ := q - f
  if frac < 1/2 then f
  else if 1/2 < frac then f + 1
  else if f % 2 = 0 then f else f + 1

/-- Python `round(q, ndigits)` on an exact rational. -/
def pyRound (q : ℚ) (ndigits : ℕ) : ℚ :=
  (roundHalfEven (q * 10 ^ ndigits) : ℚ) / 10 ^ ndigits

/-- Zero-pad a fractional part to three digits. -/
def pad3 (n : ℕ) : String :=
  if n < 10 then "00" ++ toString n
  else if n < 100 then "0" ++ toString n
  else toString n

/-- Python `f"{q:.3f}"` on an exact rational. -/
def formatFixed3 (q : ℚ) : String :=
  let scaled : ℤ := roundHalfEven (q * 1000)
  let sgn := if scaled < 0 then "-" else ""
  let n := scaled.natAbs
  sgn ++ toString (n / 1000) ++ "." ++ pad3 (n % 1000)

/-!  `src/core/rag.py` — `InstanaRAGSystem`. -/

/-- Constructor configuration of `InstanaRAGSystem` (rag.py lines 23-37),
with the Python default arguments. -/
structure InstanaRAGSystem where
  collection_name : String := "instana_docs"
  top_k : ℕ := 10
  similarity_threshold : ℚ := 4/10

/-- `InstanaRAGSystem.search_with_scores` (rag.py lines 76-102).  `raw` is
the outcome of `self.vectorstore_manager.similarity_search_with_score(query,
k=self.top_k)`: either the list it returned or the exception it raised.
The filter in the source is the literal constant `score >= 0.3`; the
`similarity_threshold` field is not consulted. -/
def InstanaRAGSystem.search_with_scores (_sys : InstanaRAGSystem)
    (raw : Except String (List (Document × ℚ))) : List (Document × ℚ) :=
  match raw with
  | .error _ => []
  | .ok results => results.filter (fun p => (3 : ℚ)/10 ≤ p.2)

/-- One entry of the `sources` list built by `get_detailed_context`
(rag.py lines 179-185). -/
structure SourceInfo where
  document_id : ℕ
  page : MetaVal
  chunk_id : MetaVal
  score : ℚ
  content_preview : String
deriving DecidableEq

/-- The dictionary returned by `get_detailed_context`. -/
structure RetrievedContext where
  context : String
  sources : List SourceInfo
  total_documents : ℕ
  average_score : ℚ
deriving DecidableEq

/-- The no-result sentinel of `get_detailed_context` (rag.py lines 159-165). -/
def noDocsSentinel : RetrievedContext :=
  { context := "관련 문서를 찾을 수 없습니다."
    sources := []
    total_documents := 0
    average_score := 0 }

/-- rag.py lines 174-176: content truncated to 400 characters plus an
ellipsis marker when it was longer. -/
def truncateContent (s : String) : String :=
  if s.length > 400 then s.take 400 ++ "..." else s

/-- rag.py line 184: the 100-character preview of the (already truncated)
content stored in a source entry. -/
def contentPreview (s : String) : String :=
  if s.length > 100 then s.take 100 ++ "..." else s

/-- rag.py lines 179-185: the source entry for the `i`-th (1-based) result. -/
def sourceInfoOf (i : ℕ) (doc : Document) (score : ℚ) : SourceInfo :=
  { document_id := i
    page := doc.metadata.getD "page" (.str "N/A")
    chunk_id := doc.metadata.getD "chunk_id" (.str "N/A")
    score := pyRound score 4
    content_preview := contentPreview (truncateContent doc.page_content) }

/-- rag.py lines 188-190: the context block for the `i`-th (1-based) result. -/
def contextEntry (i : ℕ) (doc : Document) (score : ℚ) : String :=
  "[문서 " ++ toString i ++ " (페이지 "
    ++ (doc.metadata.getD "page" (.str "N/A")).render
    ++ ", 점수: " ++ formatFixed3 score ++ ")]\n"
    ++ truncateContent doc.page_content

/-- `InstanaRAGSystem.get_detailed_context` (rag.py lines 145-211), with the
raw vector-store outcome passed through to `search_with_scores`. -/
def InstanaRAGSystem.get_detailed_context (sys : InstanaRAGSystem)
    (raw : Except String (List (Document × ℚ))) : RetrievedContext :=
  let results := sys.search_with_scores raw
  if results.isEmpty then noDocsSentinel
  else
    let indexed := results.enum.map (fun p => (p.1 + 1, p.2))
    { context := String.intercalate "\n\n"
        (indexed.map (fun p => contextEntry p.1 p.2.1 p.2.2))
      sources := indexed.map (fun p => sourceInfoOf p.1 p.2.1 p.2.2)
      total_documents := results.length
      average_score := pyRound ((results.map Prod.snd).sum / results.length) 4 }

/-!  `src/utils/pdf_processor.py` — `PDFProcessor`. -/

/-- The exceptions raised by `PDFProcessor` (pdf_processor.py lines 44-45,
61-62, 84-85): `FileNotFoundError`, and the generic `Exception` wrappers. -/
inductive PDFError where
  | fileNotFound (msg : String)
  | processing (msg : String)
deriving DecidableEq

/-- `pathlib.Path(p).name`: the component after the last slash. -/
def pathName (p : String) : String :=
  (p.splitOn "/").getLastD p

/-- Constructor configuration of `PDFProcessor` (pdf_processor.py lines
17-32), with the Python default arguments.  The
`RecursiveCharacterTextSplitter` it builds is an external library object,
passed to the embedded methods as a `splitter` parameter. -/
structure PDFProcessor where
  chunk_size : ℕ := 1000
  chunk_overlap : ℕ := 200

/-- `PDFProcessor.load_pdf` (pdf_processor.py lines 34-62).  `fs path` is
the outcome of `PyPDFLoader(path).load()`: `none` when the path does not
exist on disk, `some (.error e)` when the loader raised `e`, and
`some (.ok docs)` when it parsed.  The existence check precedes the
`try`, so `FileNotFoundError` escapes unwrapped while loader failures are
wrapped in the generic processing message.
Metadata handling: pdf_processor.py lines 52-57 apply
`metadata.update({...})` to each loaded page, setting `source`,
`file_name` and `file_type`; that update is `loadMetaUpdate`. -/
def loadMetaUpdate (m : Metadata) (pdf_path : String) : Metadata :=
  ((m.set "source" (.str pdf_path)).set
    "file_name" (.str (pathName pdf_path))).set "file_type" (.str "pdf")

/-- `PDFProcessor.load_pdf` itself: see `loadMetaUpdate` above. -/
def PDFProcessor.load_pdf (_proc : PDFProcessor)
    (fs : String → Option (Except String (List Document))) (pdf_path : String) :
    Except PDFError (List Document) :=
  match fs pdf_path with
  | none => .error (.fileNotFound ("PDF 파일을 찾을 수 없습니다: " ++ pdf_path))
  | some (.error e) => .error (.processing ("PDF 로드 중 오류 발생: " ++ e))
  | some (.ok documents) =>
      .ok (documents.map (fun doc =>
        { doc with metadata := loadMetaUpdate doc.metadata pdf_path }))

/-- pdf_processor.py lines 78-80: the enumeration loop of
`split_documents` writing `chunk_id` and `total_chunks` into every chunk. -/
def assignChunkMeta (split_docs : List Document) : List Document :=
  split_docs.enum.map (fun p =>
    { p.2 with
      metadata := (p.2.metadata.set "chunk_id" (.nat p.1)).set "total_chunks"
        (.nat split_docs.length) })

/-- `PDFProcessor.split_documents` (pdf_processor.py lines 64-85).
`splitter docs` is the outcome of `self.text_splitter.split_documents(docs)`:
the chunk list it returned or the exception it raised, which the method
wraps in the splitting error message. -/
def PDFProcessor.split_documents (_proc : PDFProcessor)
    (splitter : List Document → Except String (List Document))
    (documents : List Document) : Except PDFError (List Document) :=
  match splitter documents with
  | .error e => .error (.processing ("문서 분할 중 오류 발생: " ++ e))
  | .ok split_docs => .ok (assignChunkMeta split_docs)

/-- `PDFProcessor.process_pdf` (pdf_processor.py lines 87-104): load then
split, letting either step's exception propagate. -/
def PDFProcessor.process_pdf (proc : PDFProcessor)
    (fs : String → Option (Except String (List Document)))
    (splitter : List Document → Except String (List Document))
    (pdf_path : String) : Except PDFError (List Document) :=
  match proc.load_pdf fs pdf_path with
  | .error e => .error e
  | .ok documents => proc.split_documents splitter documents

/-- The dictionary returned by `get_document_stats`; `none` in the min/max
fields models the keys being absent from the returned dict. -/
structure DocStats where
  total_chunks : ℕ
  total_characters : ℕ
  avg_chunk_size : ℚ
  min_chunk_size : Option ℕ
  max_chunk_size : Option ℕ
deriving DecidableEq

/-- `PDFProcessor.get_document_stats` (pdf_processor.py lines 106-128). -/
def PDFProcessor.get_document_stats (_proc : PDFProcessor)
    (documents : List Document) : DocStats :=
  if documents.isEmpty then
    { total_chunks := 0, total_characters := 0, avg_chunk_size := 0,
      min_chunk_size := none, max_chunk_size := none }
  else
    let total_chars := (documents.map (fun d => d.page_content.length)).sum
    { total_chunks := documents.length
      total_characters := total_chars
      avg_chunk_size := pyRound ((total_chars : ℚ) / documents.length) 2
      min_chunk_size := (documents.map (fun d => d.page_content.length)).min?
      max_chunk_size := (documents.map (fun d => d.page_content.length)).max? }

/-!  `src/app.py` — session state and response streaming. -/

/-- One entry of `st.session_state.history` (app.py line 41). -/
structure Msg where
  role : String
  content : String
deriving DecidableEq

/-- The Streamlit session state used by the app: `history`, `turns`,
`qr_shown` (app.py lines 40-47). -/
structure SessionState where
  history : List Msg
  turns : ℕ
  qr_shown : Bool
deriving DecidableEq

/-- The initial session state (app.py lines 40-47). -/
def initSession : SessionState :=
  { history := [], turns := 0, qr_shown := false }

/-- app.py line 142: `st.session_state.turns >= CHAT_TURNS_LIMIT`. -/
def input_disabled (limit : ℕ) (s : SessionState) : Bool :=
  limit ≤ s.turns

/-- app.py lines 143-165: one pass of the chat-input block.  `user_input`
is what `st.chat_input` returned (`none` when nothing was submitted — in
particular a disabled input widget returns `None`); `assistant_response`
is the concatenation of the streamed fragments that `st.write_stream`
returned.  The guarded branch appends the user and assistant messages and
increments `turns`; otherwise the state is untouched. -/
def submitTurn (limit : ℕ) (s : SessionState) (user_input : Option String)
    (assistant_response : String) : SessionState :=
  match user_input with
  | none => s
  | some u =>
      if input_disabled limit s then s
      else
        { s with
          history := s.history ++ [⟨"user", u⟩, ⟨"assistant", assistant_response⟩]
          turns := s.turns + 1 }

/-- app.py lines 84-86: the restart button inside `show_qr_dialog` resets
history, turn count and the QR flag. -/
def restartSession (_s : SessionState) : SessionState :=
  { history := [], turns := 0, qr_shown := false }

/-- app.py lines 96-101: convert the history (minus the just-submitted
user turn, `history[:-1]`) to LangChain role-tagged pairs. -/
def to_lc_history (history : List Msg) : List (String × String) :=
  history.dropLast.map
    (fun h => (if h.role = "user" then "human" else "ai", h.content))

/-- app.py line 111: the single fragment yielded when streaming failed. -/
def streamErrorMsg (e : String) : String :=
  "RAG LLM 호출 중 오류가 발생했습니다: " ++ e

/-- `stream_response_generator` (app.py lines 92-111).  `chain_stream input
lc_history` is the outcome of iterating `streaming_chain.stream(...)`: the
fragments it yielded before finishing, paired with `some e` if it then
raised `e` (`none` if it finished normally).  The generator re-yields the
fragments and converts a raised exception into one final error fragment. -/
def stream_response_generator
    (chain_stream : String → List (String × String) → List String × Option String)
    (user_input : String) (history : List Msg) : List String :=
  match chain_stream user_input (to_lc_history history) with
  | (chunks, none) => chunks
  | (chunks, some e) => chunks ++ [streamErrorMsg e]

/-!  `src/core/llm.py` and app startup — configuration loading. -/

/-- The process environment: `os.getenv`. -/
def Env := String → Option String

/-- Python truthiness of an optional environment string: `None` and the
empty string are falsy, which is what `all([api_key, url, project_id])`
tests. -/
def truthy : Option String → Bool
  | none => false
  | some s => !(s == "")

/-- The configured `ChatWatsonx` client (core/llm.py lines 28-41); building
it performs no model call. -/
structure LLMConfig where
  model_id : String
  url : String
  project_id : String
  temperature : ℚ
  max_tokens : ℕ
deriving DecidableEq

/-- `build_llm` (core/llm.py lines 15-41): read the watsonx variables,
raise a descriptive `RuntimeError` when any of the three required ones is
missing, otherwise construct the client configuration. -/
def build_llm (env : Env) : Except String LLMConfig :=
  let api_key := env "WATSONX_APIKEY"
  let url := env "WATSONX_URL"
  let project_id := env "WATSONX_PROJECT_ID"
  let model_id := (env "WATSONX_MODEL_ID").getD "ibm/granite-20b-multilingual"
  if truthy api_key && truthy url && truthy project_id then
    .ok { model_id := model_id
          url := url.getD ""
          project_id := project_id.getD ""
          temperature := 1/10
          max_tokens := 800 }
  else
    .error "Missing watsonx env vars (WATSONX_APIKEY, WATSONX_URL, WATSONX_PROJECT_ID)."

/-- Python `int(x)` on an optional string: `int(None)` raises `TypeError`,
an unparsable string raises `ValueError`. -/
def pyInt : Option String → Except String ℤ
  | none =>
      .error "int() argument must be a string, a bytes-like object or a real number, not NoneType"
  | some s =>
      match s.toInt? with
      | none => .error ("invalid literal for int() with base 10: " ++ s)
      | some n => .ok n

/-- The configuration assembled at app startup. -/
structure AppConfig where
  chat_turns_limit : ℤ
  qr_text : Option String
  llm : LLMConfig
deriving DecidableEq

/-- The module-level startup of app.py (lines 49-55) in execution order:
`CHAT_TURNS_LIMIT = int(os.getenv("CHAT_TURNS_LIMIT"))`, `QR_TEXT`, then
`build_streaming_chain()` which calls `build_llm()`.  No model call is
made here; the first exception aborts startup. -/
def app_startup (env : Env) : Except String AppConfig :=
  match pyInt (env "CHAT_TURNS_LIMIT") with
  | .error e => .error e
  | .ok limit =>
      match build_llm env with
      | .error e => .error e
      | .ok llm =>
          .ok { chat_turns_limit := limit, qr_text := env "QR_TEXT", llm := llm }

/-!  Helper lemmas shared by the claim theorems. -/

theorem search_with_scores_error_eq (sys : InstanaRAGSystem) (e : String) :
    sys.search_with_scores (.error e) = [] := rfl

theorem search_with_scores_ok_eq (sys : InstanaRAGSystem)
    (results : List (Document × ℚ)) :
    sys.search_with_scores (.ok results)
      = results.filter (fun p => decide ((3 : ℚ)/10 ≤ p.2)) := rfl

theorem get_detailed_context_of_empty (sys : InstanaRAGSystem)
    (raw : Except String (List (Document × ℚ)))
    (h : sys.search_with_scores raw = []) :
    sys.get_detailed_context raw = noDocsSentinel := by
  simp [InstanaRAGSystem.get_detailed_context, h]

theorem get_detailed_context_of_ne (sys : InstanaRAGSystem)
    (raw : Except String (List (Document × ℚ)))
    (h : sys.search_with_scores raw ≠ []) :
    sys.get_detailed_context raw =
      { context := String.intercalate "\n\n"
          ((sys.search_with_scores raw).enum.map
            (fun p => contextEntry (p.1 + 1) p.2.1 p.2.2))
        sources := (sys.search_with_scores raw).enum.map
          (fun p => sourceInfoOf (p.1 + 1) p.2.1 p.2.2)
        total_documents := (sys.search_with_scores raw).length
        average_score := pyRound
          (((sys.search_with_scores raw).map Prod.snd).sum
            / (sys.search_with_scores raw).length) 4 } := by
  rw [InstanaRAGSystem.get_detailed_context]
  simp only [List.isEmpty_iff, h, if_false, List.map_map]
  rfl

theorem truncateContent_length_long (s : String) (h : 400 < s.length) :
    (truncateContent s).length = 403 := by
  have h3 : ("..." : String).length = 3 := rfl
  have hs : s.length = s.data.length := rfl
  simp [truncateContent, if_pos, h, String.take_eq, String.length_append, h3,
    List.length_take]
  omega

theorem truncateContent_of_short (s : String) (h : s.length ≤ 400) :
    truncateContent s = s := by
  simp [truncateContent]
  omega

/-!  Claim C1 — score filtering. -/

unseal Rat.mul Rat.add Rat.sub Rat.inv in
/-- C1, counterexample: the claim says `search_with_scores` keeps exactly
the pairs whose score is at or above the configured `similarity_threshold`
(default said to be 0.3).  With the default-constructed system, the
configured threshold is 0.4, yet a result scoring 0.35 — strictly below
it — survives the filter: the source filters against the literal 0.3 and
ignores the configured field. -/
theorem C1_counterexample :
    ({} : InstanaRAGSystem).similarity_threshold = 4/10
      ∧ InstanaRAGSystem.search_with_scores {}
          (.ok [(⟨"A", ([] : Metadata)⟩, 35/100)])
          = [(⟨"A", ([] : Metadata)⟩, 35/100)]
      ∧ ¬ ((35 : ℚ)/100 ≥ ({} : InstanaRAGSystem).similarity_threshold) := by
  refine ⟨by decide, by decide, by decide⟩

unseal Rat.mul Rat.add Rat.sub Rat.inv in
/-- C1 (amended): the score-filtering step of `search_with_scores` keeps
exactly those pairs among the top_k results whose score is at or above the
fixed literal threshold 0.3 (the configured `similarity_threshold`, whose
constructor default is 0.4, is ignored), preserving their original
relative order; in particular, for results `[(A,0.5),(B,0.25),(C,0.31)]`
the filtered output is `[A,C]` with `B` excluded. -/
theorem C1_filter_uses_fixed_threshold (sys : InstanaRAGSystem)
    (results : List (Document × ℚ)) :
    sys.search_with_scores (.ok results)
        = results.filter (fun p => decide ((3 : ℚ)/10 ≤ p.2))
      ∧ (sys.search_with_scores (.ok results)).Sublist results
      ∧ (∀ p : Document × ℚ,
          p ∈ sys.search_with_scores (.ok results)
            ↔ p ∈ results ∧ (3 : ℚ)/10 ≤ p.2)
      ∧ InstanaRAGSystem.search_with_scores {}
          (.ok [(⟨"A", ([] : Metadata)⟩, 5/10), (⟨"B", ([] : Metadata)⟩, 25/100),
                (⟨"C", ([] : Metadata)⟩, 31/100)])
          = [(⟨"A", ([] : Metadata)⟩, 5/10), (⟨"C", ([] : Metadata)⟩, 31/100)] := by
  refine ⟨rfl, List.filter_sublist _, ?_, by decide⟩
  intro p
  simp [InstanaRAGSystem.search_with_scores, List.mem_filter]

unseal Rat.mul Rat.add Rat.sub Rat.inv in
/-- C1, witness: the amended theorem evaluated at a concrete system and
result list. -/
theorem C1_witness :
    InstanaRAGSystem.search_with_scores {}
        (.ok [(⟨"A", ([] : Metadata)⟩, 35/100)])
      = [(⟨"A", ([] : Metadata)⟩, (35 : ℚ)/100)].filter
          (fun p => decide ((3 : ℚ)/10 ≤ p.2)) :=
  (C1_filter_uses_fixed_threshold {} _).1

/-!  Claim C2 — empty/failed retrieval degrades to the sentinel. -/

/-- C2: whenever the raw search raised (any retrieval failure is caught by
`search_with_scores` and becomes the empty list) or no result survives
filtering, `get_detailed_context` returns — without any exception — the
sentinel `RetrievedContext` whose context string is the explicit
"관련 문서를 찾을 수 없습니다." (no relevant documents found) message, with
empty sources, `total_documents = 0` and `average_score = 0.0`. -/
theorem C2_retrieval_degrades_to_sentinel :
    (∀ (sys : InstanaRAGSystem) (e : String),
        sys.search_with_scores (.error e) = []
          ∧ sys.get_detailed_context (.error e) = noDocsSentinel)
      ∧ (∀ (sys : InstanaRAGSystem) (raw : Except String (List (Document × ℚ))),
          sys.search_with_scores raw = [] →
            sys.get_detailed_context raw = noDocsSentinel)
      ∧ noDocsSentinel.context = "관련 문서를 찾을 수 없습니다."
      ∧ noDocsSentinel.sources = []
      ∧ noDocsSentinel.total_documents = 0
      ∧ noDocsSentinel.average_score = 0 :=
  ⟨fun sys _ => ⟨rfl, get_detailed_context_of_empty sys _ rfl⟩,
   fun sys raw h => get_detailed_context_of_empty sys raw h,
   rfl, rfl, rfl, rfl⟩

unseal Rat.mul Rat.add Rat.sub Rat.inv in
/-- C2, witness: the theorem applied to a failed search and to a search
whose single result (score 0.25) is filtered out. -/
theorem C2_witness :
    InstanaRAGSystem.get_detailed_context {} (.error "connection refused")
        = noDocsSentinel
      ∧ InstanaRAGSystem.get_detailed_context {}
          (.ok [(⟨"B", ([] : Metadata)⟩, 25/100)]) = noDocsSentinel :=
  ⟨(C2_retrieval_degrades_to_sentinel.1 {} "connection refused").2,
   C2_retrieval_degrades_to_sentinel.2.1 {} _ (by decide)⟩

/-!  Claim C3 — session turn gating. -/

/-- C3: each accepted user-to-assistant exchange appends the two messages
and increments the turn count by exactly 1; once the turn count reaches
the limit the input is disabled and a further submission leaves the state
unchanged; restart resets to the initial state (empty history, turn count
0); and the concrete limit-2 scenario runs as the spec describes. -/
theorem C3_turn_gating :
    (∀ (limit : ℕ) (s : SessionState) (u a : String),
        input_disabled limit s = false →
          (submitTurn limit s (some u) a).turns = s.turns + 1
            ∧ (submitTurn limit s (some u) a).history
                = s.history ++ [⟨"user", u⟩, ⟨"assistant", a⟩])
      ∧ (∀ (limit : ℕ) (s : SessionState) (u? : Option String) (a : String),
          input_disabled limit s = true → submitTurn limit s u? a = s)
      ∧ (∀ s : SessionState, restartSession s = initSession)
      ∧ (let s1 := submitTurn 2 initSession (some "q1") "a1"
         let s2 := submitTurn 2 s1 (some "q2") "a2"
         s1.turns = 1 ∧ input_disabled 2 s1 = false
           ∧ s2.turns = 2 ∧ input_disabled 2 s2 = true
           ∧ submitTurn 2 s2 (some "q3") "a3" = s2
           ∧ restartSession s2 = initSession
           ∧ input_disabled 2 (restartSession s2) = false) := by
  refine ⟨?_, ?_, fun s => rfl, by decide⟩
  · intro limit s u a h
    simp [submitTurn, h]
  · intro limit s u? a h
    cases u? with
    | none => rfl
    | some u => simp [submitTurn, h]

/-- C3, witness: the theorem applied to an accepted submission from the
initial state (limit 3) and to a rejected submission at the limit. -/
theorem C3_witness :
    ((submitTurn 3 initSession (some "hello") "hi").turns = 1
      ∧ (submitTurn 3 initSession (some "hello") "hi").history
          = initSession.history ++ [⟨"user", "hello"⟩, ⟨"assistant", "hi"⟩])
      ∧ submitTurn 2 ⟨[], 2, false⟩ (some "again") "resp" = ⟨[], 2, false⟩ :=
  ⟨C3_turn_gating.1 3 initSession "hello" "hi" rfl,
   C3_turn_gating.2.1 2 ⟨[], 2, false⟩ (some "again") "resp" rfl⟩

/-!  Claim C4 — chunk index metadata. -/

theorem assignChunkMeta_length (l : List Document) :
    (assignChunkMeta l).length = l.length := by
  simp [assignChunkMeta]

theorem assignChunkMeta_chunk_ids (l : List Document) :
    (assignChunkMeta l).map (fun d => d.metadata.get "chunk_id")
      = (List.range l.length).map (fun i => some (MetaVal.nat i)) := by
  simp only [assignChunkMeta, List.map_map]
  have h1 : ((fun d : Document => d.metadata.get "chunk_id")
        ∘ fun p : ℕ × Document =>
          ({ p.2 with
            metadata := (p.2.metadata.set "chunk_id" (.nat p.1)).set
              "total_chunks" (.nat l.length) } : Document))
      = fun p : ℕ × Document => some (MetaVal.nat p.1) := by
    funext p
    simp [Metadata.get, Metadata.set, List.lookup]
  rw [h1]
  conv_rhs => rw [← List.enum_map_fst l]
  rw [List.map_map]
  rfl

theorem assignChunkMeta_total_chunks (l : List Document) :
    (assignChunkMeta l).map (fun d => d.metadata.get "total_chunks")
      = List.replicate l.length (some (MetaVal.nat l.length)) := by
  simp only [assignChunkMeta, List.map_map]
  have h1 : ((fun d : Document => d.metadata.get "total_chunks")
        ∘ fun p : ℕ × Document =>
          ({ p.2 with
            metadata := (p.2.metadata.set "chunk_id" (.nat p.1)).set
              "total_chunks" (.nat l.length) } : Document))
      = fun _ : ℕ × Document => some (MetaVal.nat l.length) := by
    funext p
    simp [Metadata.get, Metadata.set, List.lookup]
  rw [h1]
  rw [List.map_const']
  simp

/-- C4: whenever `split_documents` succeeds, the produced chunks carry
`chunk_id` metadata exactly `0..n-1` in enumeration order over the `n`
produced chunks, and every chunk's `total_chunks` metadata equals `n`. -/
theorem C4_chunk_indices (proc : PDFProcessor)
    (splitter : List Document → Except String (List Document))
    (documents chunks : List Document)
    (h : proc.split_documents splitter documents = .ok chunks) :
    chunks.map (fun d => d.metadata.get "chunk_id")
        = (List.range chunks.length).map (fun i => some (MetaVal.nat i))
      ∧ chunks.map (fun d => d.metadata.get "total_chunks")
        = List.replicate chunks.length (some (MetaVal.nat chunks.length)) := by
  unfold PDFProcessor.split_documents at h
  cases hs : splitter documents with
  | error e => rw [hs] at h; simp at h
  | ok l =>
      rw [hs] at h
      simp only [Except.ok.injEq] at h
      subst h
      rw [assignChunkMeta_length]
      exact ⟨assignChunkMeta_chunk_ids l, assignChunkMeta_total_chunks l⟩

/-- C4, witness: the theorem evaluated on a two-page document list with
an identity splitter. -/
theorem C4_witness :
    PDFProcessor.split_documents {} (fun ds => Except.ok ds)
        [⟨"pg1", ([] : Metadata)⟩, ⟨"pg2", ([] : Metadata)⟩]
      = .ok [⟨"pg1", [("total_chunks", .nat 2), ("chunk_id", .nat 0)]⟩,
             ⟨"pg2", [("total_chunks", .nat 2), ("chunk_id", .nat 1)]⟩]
      ∧ ([⟨"pg1", [("total_chunks", .nat 2), ("chunk_id", .nat 0)]⟩,
          ⟨"pg2", [("total_chunks", .nat 2), ("chunk_id", .nat 1)]⟩]
            : List Document).map (fun d => d.metadata.get "chunk_id")
        = (List.range 2).map (fun i => some (MetaVal.nat i)) :=
  ⟨rfl,
   (C4_chunk_indices {} (fun ds => Except.ok ds)
      [⟨"pg1", ([] : Metadata)⟩, ⟨"pg2", ([] : Metadata)⟩]
      [⟨"pg1", [("total_chunks", .nat 2), ("chunk_id", .nat 0)]⟩,
       ⟨"pg2", [("total_chunks", .nat 2), ("chunk_id", .nat 1)]⟩]
      rfl).1⟩

/-!  Claim C5 — preview truncation. -/

unseal Rat.mul Rat.add Rat.sub Rat.inv in
/-- C5, counterexample: the claim says each surviving chunk's text is
truncated to a preview of at most 400 characters before being placed into
the context string.  For a 401-character chunk the preview actually placed
is the first 400 characters plus a 3-character ellipsis — 403 characters,
more than 400. -/
theorem C5_counterexample :
    400 < (truncateContent (String.mk (List.replicate 401 'a'))).length
      ∧ (InstanaRAGSystem.get_detailed_context {}
          (.ok [(⟨String.mk (List.replicate 401 'a'), ([] : Metadata)⟩, 5/10)])).context
        = "[문서 1 (페이지 N/A, 점수: 0.500)]\n"
          ++ truncateContent (String.mk (List.replicate 401 'a')) := by
  constructor
  · have h : 400 < (String.mk (List.replicate 401 'a')).length := by
      simp only [String.length_mk, List.length_replicate]
      omega
    rw [truncateContent_length_long _ h]
    omega
  · have hne : InstanaRAGSystem.search_with_scores {}
        (.ok [(⟨String.mk (List.replicate 401 'a'), ([] : Metadata)⟩, (5:ℚ)/10)])
        = [(⟨String.mk (List.replicate 401 'a'), ([] : Metadata)⟩, (5:ℚ)/10)] := by
      rw [search_with_scores_ok_eq]
      rw [List.filter_cons]
      norm_num
    rw [get_detailed_context_of_ne _ _ (by rw [hne]; simp)]
    rw [hne]
    show String.intercalate "\n\n"
        [contextEntry 1 ⟨String.mk (List.replicate 401 'a'), ([] : Metadata)⟩ ((5:ℚ)/10)] = _
    rw [String.intercalate]
    rfl

/-- C5 (amended): each surviving chunk's text is truncated, before being
placed into the context string and (further shortened to 100 characters)
into the source entries, to its first 400 characters with a 3-character
ellipsis appended when it exceeds 400 characters — a preview of at most
403 characters containing at most 400 characters of the original text —
and the context and source entries are assembled from exactly these
truncated previews. -/
theorem C5_truncation_bound (sys : InstanaRAGSystem)
    (raw : Except String (List (Document × ℚ))) (s : String) :
    ((truncateContent s).length ≤ 403
      ∧ (s.length ≤ 400 → truncateContent s = s)
      ∧ (400 < s.length →
          truncateContent s = s.take 400 ++ "..."
            ∧ (truncateContent s).length = 403))
    ∧ (sys.search_with_scores raw ≠ [] →
        (sys.get_detailed_context raw).context
            = String.intercalate "\n\n"
                ((sys.search_with_scores raw).enum.map
                  (fun p => contextEntry (p.1 + 1) p.2.1 p.2.2))
          ∧ (sys.get_detailed_context raw).sources
            = (sys.search_with_scores raw).enum.map
                (fun p => sourceInfoOf (p.1 + 1) p.2.1 p.2.2)) := by
  refine ⟨⟨?_, truncateContent_of_short s, ?_⟩, ?_⟩
  · by_cases h : s.length ≤ 400
    · rw [truncateContent_of_short s h]; omega
    · rw [truncateContent_length_long s (by omega)]
  · intro h
    exact ⟨by rw [truncateContent, if_pos (by omega)],
           truncateContent_length_long s h⟩
  · intro h
    rw [get_detailed_context_of_ne sys raw h]
    exact ⟨rfl, rfl⟩

unseal Rat.mul Rat.add Rat.sub Rat.inv in
/-- C5, witness: the amended theorem evaluated at a short string and at a
concrete single-result retrieval. -/
theorem C5_witness :
    truncateContent "hi" = "hi"
      ∧ (InstanaRAGSystem.get_detailed_context {}
            (.ok [(⟨"docA", ([] : Metadata)⟩, 5/10)])).context
          = String.intercalate "\n\n"
              ((InstanaRAGSystem.search_with_scores {}
                  (.ok [(⟨"docA", ([] : Metadata)⟩, 5/10)])).enum.map
                (fun p => contextEntry (p.1 + 1) p.2.1 p.2.2)) :=
  ⟨(C5_truncation_bound {} (.ok []) "hi").1.2.1 (by decide),
   ((C5_truncation_bound {} (.ok [(⟨"docA", ([] : Metadata)⟩, 5/10)]) "x").2
      (by decide)).1⟩

/-!  Claim C6 — totals and average of the surviving set. -/

/-- C6: for a retrieval whose surviving result set is non-empty,
`get_detailed_context` reports `total_documents` equal to the number of
surviving results, which also equals the length of the sources list, and
`average_score` equal to the arithmetic mean of the surviving scores
rounded (banker's rounding) to 4 decimal places. -/
theorem C6_totals_and_average (sys : InstanaRAGSystem)
    (raw : Except String (List (Document × ℚ)))
    (h : sys.search_with_scores raw ≠ []) :
    (sys.get_detailed_context raw).total_documents
        = (sys.search_with_scores raw).length
      ∧ (sys.get_detailed_context raw).sources.length
        = (sys.search_with_scores raw).length
      ∧ (sys.get_detailed_context raw).average_score
        = pyRound ((((sys.search_with_scores raw).map Prod.snd).sum)
            / ((sys.search_with_scores raw).length : ℚ)) 4 := by
  rw [get_detailed_context_of_ne sys raw h]
  refine ⟨rfl, ?_, rfl⟩
  simp

unseal Rat.mul Rat.add Rat.sub Rat.inv in
/-- C6, witness: the theorem evaluated at a concrete two-result
retrieval with scores 0.5 and 0.31: mean 0.405, reported as 0.405. -/
theorem C6_witness :
    (InstanaRAGSystem.get_detailed_context {}
        (.ok [(⟨"A", ([] : Metadata)⟩, 5/10),
              (⟨"C", ([] : Metadata)⟩, 31/100)])).total_documents = 2
      ∧ (InstanaRAGSystem.get_detailed_context {}
          (.ok [(⟨"A", ([] : Metadata)⟩, 5/10),
                (⟨"C", ([] : Metadata)⟩, 31/100)])).sources.length = 2
      ∧ (InstanaRAGSystem.get_detailed_context {}
          (.ok [(⟨"A", ([] : Metadata)⟩, 5/10),
                (⟨"C", ([] : Metadata)⟩, 31/100)])).average_score = 405/1000 :=
  ⟨(C6_totals_and_average {} _ (by decide)).1,
   (C6_totals_and_average {} _ (by decide)).2.1,
   (C6_totals_and_average {}
      (.ok [(⟨"A", ([] : Metadata)⟩, 5/10),
            (⟨"C", ([] : Metadata)⟩, 31/100)]) (by decide)).2.2⟩

/-!  Claim C7 — process_pdf error contract. -/

/-- C7: `process_pdf` fails with the not-found error when the path does
not resolve to an existing file, wraps any parse failure of the loader in
the processing error, and returns a chunk sequence only when the file
exists and parses successfully. -/
theorem C7_process_pdf_errors (proc : PDFProcessor)
    (fs : String → Option (Except String (List Document)))
    (splitter : List Document → Except String (List Document))
    (path : String) :
    (fs path = none →
        proc.process_pdf fs splitter path
          = .error (.fileNotFound ("PDF 파일을 찾을 수 없습니다: " ++ path)))
      ∧ (∀ e, fs path = some (.error e) →
          proc.process_pdf fs splitter path
            = .error (.processing ("PDF 로드 중 오류 발생: " ++ e)))
      ∧ (∀ chunks, proc.process_pdf fs splitter path = .ok chunks →
          ∃ docs, fs path = some (.ok docs)) := by
  refine ⟨?_, ?_, ?_⟩
  · intro h
    simp [PDFProcessor.process_pdf, PDFProcessor.load_pdf, h]
  · intro e h
    simp [PDFProcessor.process_pdf, PDFProcessor.load_pdf, h]
  · intro chunks h
    cases hf : fs path with
    | none =>
        simp [PDFProcessor.process_pdf, PDFProcessor.load_pdf, hf] at h
    | some r =>
        cases r with
        | error e =>
            simp [PDFProcessor.process_pdf, PDFProcessor.load_pdf, hf] at h
        | ok docs => exact ⟨docs, rfl⟩

/-- C7, witness: the theorem evaluated on a missing file, a file whose
parse fails, and a successfully parsed empty document. -/
theorem C7_witness :
    PDFProcessor.process_pdf {} (fun _ => none) (fun ds => Except.ok ds)
        "missing.pdf"
        = .error (.fileNotFound ("PDF 파일을 찾을 수 없습니다: " ++ "missing.pdf"))
      ∧ PDFProcessor.process_pdf {} (fun _ => some (.error "bad xref"))
          (fun ds => Except.ok ds) "broken.pdf"
        = .error (.processing ("PDF 로드 중 오류 발생: " ++ "bad xref"))
      ∧ ∃ docs,
          (fun _ : String =>
              (some (.ok ([] : List Document)) : Option (Except String (List Document))))
            "ok.pdf" = some (.ok docs) :=
  ⟨(C7_process_pdf_errors {} (fun _ => none) (fun ds => Except.ok ds)
      "missing.pdf").1 rfl,
   (C7_process_pdf_errors {} (fun _ => some (.error "bad xref"))
      (fun ds => Except.ok ds) "broken.pdf").2.1 "bad xref" rfl,
   (C7_process_pdf_errors {}
      (fun _ : String =>
        (some (.ok ([] : List Document)) : Option (Except String (List Document))))
      (fun ds => Except.ok ds) "ok.pdf").2.2 [] rfl⟩

/-!  Claim C8 — streaming failures degrade to an inline fragment. -/

/-- C8: when producing the streamed response fails after yielding some
fragments, `stream_response_generator` yields those fragments followed by
exactly one further fragment describing the failure, instead of raising —
and when streaming finishes normally it yields exactly the chain's
fragments.  The generator is a total function, so the fragment stream
always terminates normally. -/
theorem C8_stream_failure_inline
    (chain_stream : String → List (String × String) → List String × Option String)
    (user_input : String) (history : List Msg) :
    (∀ chunks e,
        chain_stream user_input (to_lc_history history) = (chunks, some e) →
          stream_response_generator chain_stream user_input history
            = chunks ++ [streamErrorMsg e])
      ∧ (∀ chunks,
          chain_stream user_input (to_lc_history history) = (chunks, none) →
            stream_response_generator chain_stream user_input history = chunks) := by
  constructor
  · intro chunks e h
    simp [stream_response_generator, h]
  · intro chunks h
    simp [stream_response_generator, h]

/-- C8, witness: the theorem evaluated on a stream that fails after one
fragment. -/
theorem C8_witness :
    stream_response_generator (fun _ _ => (["partial"], some "timeout")) "q" []
      = ["partial", streamErrorMsg "timeout"] :=
  (C8_stream_failure_inline (fun _ _ => (["partial"], some "timeout")) "q" []).1
    ["partial"] "timeout" rfl

/-!  Claim C9 — missing configuration fails startup. -/

/-- C9: if any required configuration value is missing from the
environment — `WATSONX_APIKEY`, `WATSONX_URL` or `WATSONX_PROJECT_ID` for
the language model, or `CHAT_TURNS_LIMIT` for the session — the app
startup sequence (which performs no model call) stops with an error
instead of producing a configuration. -/
theorem C9_missing_config_fails_startup (env : Env)
    (h : env "CHAT_TURNS_LIMIT" = none ∨ env "WATSONX_APIKEY" = none
      ∨ env "WATSONX_URL" = none ∨ env "WATSONX_PROJECT_ID" = none) :
    ∃ e, app_startup env = .error e := by
  rcases h with h | h | h | h
  · exact ⟨"int() argument must be a string, a bytes-like object or a real number, not NoneType",
      by simp [app_startup, pyInt, h]⟩
  all_goals
    cases hp : pyInt (env "CHAT_TURNS_LIMIT") with
    | error e => exact ⟨e, by simp [app_startup, hp]⟩
    | ok n =>
        exact ⟨"Missing watsonx env vars (WATSONX_APIKEY, WATSONX_URL, WATSONX_PROJECT_ID).",
          by simp [app_startup, hp, build_llm, h, truthy]⟩

/-- C9, witness: the theorem evaluated on the empty environment. -/
theorem C9_witness : ∃ e, app_startup (fun _ => none) = .error e :=
  C9_missing_config_fails_startup (fun _ => none) (Or.inl rfl)

/-!  Claim C10 — document statistics are total. -/

/-- C10: `get_document_stats` is total: on the empty chunk list it returns
zero counts with the min/max fields absent (no division by zero, no
min/max of an empty sequence); on a non-empty list it returns the exact
chunk count, the total character sum, the mean chunk size rounded
(banker's rounding) to 2 decimals, and the minimum and maximum chunk
lengths. -/
theorem C10_document_stats (proc : PDFProcessor) :
    proc.get_document_stats [] = ⟨0, 0, 0, none, none⟩
      ∧ ∀ documents : List Document, documents ≠ [] →
          ((proc.get_document_stats documents).total_chunks = documents.length
            ∧ (proc.get_document_stats documents).total_characters
                = (documents.map (fun d => d.page_content.length)).sum
            ∧ (proc.get_document_stats documents).avg_chunk_size
                = pyRound
                    (Nat.cast ((documents.map (fun d => d.page_content.length)).sum)
                      / (documents.length : ℚ)) 2
            ∧ (∃ m, (proc.get_document_stats documents).min_chunk_size = some m
                  ∧ m ∈ documents.map (fun d => d.page_content.length)
                  ∧ ∀ x ∈ documents.map (fun d => d.page_content.length), m ≤ x)
            ∧ (∃ M, (proc.get_document_stats documents).max_chunk_size = some M
                  ∧ M ∈ documents.map (fun d => d.page_content.length)
                  ∧ ∀ x ∈ documents.map (fun d => d.page_content.length), x ≤ M)) := by
  refine ⟨rfl, ?_⟩
  intro documents hne
  have hempty : documents.isEmpty = false := by
    simp [List.isEmpty_iff, hne]
  have hmapne : documents.map (fun d => d.page_content.length) ≠ [] := by
    simp [hne]
  obtain ⟨m, hm⟩ : ∃ m,
      (documents.map (fun d => d.page_content.length)).min? = some m := by
    cases hmin : (documents.map (fun d => d.page_content.length)).min? with
    | none => exact absurd (List.min?_eq_none_iff.mp hmin) hmapne
    | some m => exact ⟨m, rfl⟩
  obtain ⟨M, hM⟩ : ∃ M,
      (documents.map (fun d => d.page_content.length)).max? = some M := by
    cases hmax : (documents.map (fun d => d.page_content.length)).max? with
    | none => exact absurd (List.max?_eq_none_iff.mp hmax) hmapne
    | some M => exact ⟨M, rfl⟩
  have hmm := List.min?_eq_some_iff'.mp hm
  have hMM := List.max?_eq_some_iff'.mp hM
  simp only [PDFProcessor.get_document_stats, hempty, Bool.false_eq_true,
    if_false]
  exact ⟨trivial, trivial, trivial, ⟨m, hm, hmm.1, hmm.2⟩, ⟨M, hM, hMM.1, hMM.2⟩⟩

unseal Rat.mul Rat.add Rat.sub Rat.inv in
/-- C10, witness: the theorem evaluated on a concrete two-chunk list with
contents of lengths 4 and 2. -/
theorem C10_witness :
    PDFProcessor.get_document_stats {} [] = ⟨0, 0, 0, none, none⟩
      ∧ (PDFProcessor.get_document_stats {}
            [⟨"docA", ([] : Metadata)⟩, ⟨"xy", ([] : Metadata)⟩]).total_chunks = 2
      ∧ (PDFProcessor.get_document_stats {}
            [⟨"docA", ([] : Metadata)⟩, ⟨"xy", ([] : Metadata)⟩]).total_characters = 6
      ∧ (PDFProcessor.get_document_stats {}
            [⟨"docA", ([] : Metadata)⟩, ⟨"xy", ([] : Metadata)⟩]).avg_chunk_size = 3 :=
  ⟨C10_document_stats ({} : PDFProcessor) |>.1,
   ((C10_document_stats {}).2 [⟨"docA", ([] : Metadata)⟩, ⟨"xy", ([] : Metadata)⟩]
      (by decide)).1,
   ((C10_document_stats {}).2 [⟨"docA", ([] : Metadata)⟩, ⟨"xy", ([] : Metadata)⟩]
      (by decide)).2.1,
   ((C10_document_stats {}).2 [⟨"docA", ([] : Metadata)⟩, ⟨"xy", ([] : Metadata)⟩]
      (by decide)).2.2.1⟩

end AskStan
